import Mathlib

/-
Verification of the OAuth2/OIDC session & consent engine of this repository
against its natural-language specification.

The Go source is shallowly embedded: pure helpers become Lean functions, the
stateful store methods become explicit state-passing functions over association
lists that model the storage provider's tables, and Go's (value, error) returns
become sum types whose constructors correspond one-to-one to the source's
return statements.  Machine integers and times are modelled as Nat.  Functions
of this repository that are not part of the given source fragment (the storage
provider's CRUD operations, small model constructors, utility predicates) are
modelled from the specification; each such definition carries a doc comment
saying so.
-/

set_option maxRecDepth 4000

namespace Authelia

/-! ## SHA-256 (crypto/sha256), used by the JTI replay ledger

The replay check hashes the JTI with SHA-256 and hex-encodes the digest
(fmt.Sprintf of sha256.Sum256).  This is a bit-faithful executable embedding of
FIPS 180-4 SHA-256 over byte lists, with 32-bit words as Nat reduced mod 2^32. -/

/-- Truncate to a 32-bit word. -/
def w32 (n : Nat) : Nat := n % 4294967296

/-- Rotate a 32-bit word right by `n` bits (0 < n < 32). -/
def rotr32 (x n : Nat) : Nat := (x >>> n) ||| w32 (x <<< (32 - n))

/-- Schedule sigma-0 function of SHA-256. -/
def smallSigma0 (x : Nat) : Nat := (rotr32 x 7) ^^^ (rotr32 x 18) ^^^ (x >>> 3)

/-- Schedule sigma-1 function of SHA-256. -/
def smallSigma1 (x : Nat) : Nat := (rotr32 x 17) ^^^ (rotr32 x 19) ^^^ (x >>> 10)

/-- Compression Sigma-0 function of SHA-256. -/
def bigSigma0 (x : Nat) : Nat := (rotr32 x 2) ^^^ (rotr32 x 13) ^^^ (rotr32 x 22)

/-- Compression Sigma-1 function of SHA-256. -/
def bigSigma1 (x : Nat) : Nat := (rotr32 x 6) ^^^ (rotr32 x 11) ^^^ (rotr32 x 25)

/-- Choice function of SHA-256; the complement is xor with the all-ones word. -/
def ch32 (x y z : Nat) : Nat := (x &&& y) ^^^ ((x ^^^ 4294967295) &&& z)

/-- Majority function of SHA-256. -/
def maj32 (x y z : Nat) : Nat := (x &&& y) ^^^ (x &&& z) ^^^ (y &&& z)

/-- One bisection step of the integer k-th root search, on explicit fuel. -/
def rootBelow (k n : Nat) (lo hi : Nat) : Nat → Nat
  | 0 => lo
  | fuel + 1 =>
    let mid := (lo + hi + 1) / 2
    if mid ^ k ≤ n then rootBelow k n mid hi fuel else rootBelow k n lo (mid - 1) fuel

/-- Integer k-th root of n (for n below 2^111, as used here): the largest r
with r^k at most n, found by bisection over the range up to 2^37. -/
def introot (k n : Nat) : Nat := rootBelow k n 0 137438953472 40

/-- The first sixty-four primes, whose roots seed the SHA-256 constants. -/
def primes64 : List Nat :=
  [2, 3, 5, 7, 11, 13, 17, 19, 23, 29, 31, 37, 41, 43, 47, 53,
   59, 61, 67, 71, 73, 79, 83, 89, 97, 101, 103, 107, 109, 113, 127, 131,
   137, 139, 149, 151, 157, 163, 167, 173, 179, 181, 191, 193, 197, 199, 211, 223,
   227, 229, 233, 239, 241, 251, 257, 263, 269, 271, 277, 281, 283, 293, 307, 311]

/-- Round constants of SHA-256: the first 32 bits of the fractional parts of
the cube roots of the first sixty-four primes (FIPS 180-4 section 4.2.2). -/
def sha256K : List Nat :=
  primes64.map (fun p => introot 3 (p * 2 ^ 96) % 2 ^ 32)

/-- Initial hash state of SHA-256: the first 32 bits of the fractional parts
of the square roots of the first eight primes (FIPS 180-4 section 5.3.3). -/
def sha256H0 : List Nat :=
  (primes64.take 8).map (fun p => introot 2 (p * 2 ^ 64) % 2 ^ 32)

/-- Big-endian encoding of `n` into `k` bytes. -/
def beBytes : Nat → Nat → List Nat
  | 0, _ => []
  | k + 1, n => beBytes k (n / 256) ++ [n % 256]

/-- SHA-256 message padding: a 0x80 byte, zero bytes up to 56 mod 64, and the
64-bit big-endian bit length. -/
def sha256pad (msg : List Nat) : List Nat :=
  msg ++ [0x80] ++ List.replicate ((64 - (msg.length + 9) % 64) % 64) 0 ++ beBytes 8 (msg.length * 8)

/-- Group a byte list into big-endian 32-bit words. -/
def toWords32 : List Nat → List Nat
  | a :: b :: c :: d :: rest => (((a * 256 + b) * 256 + c) * 256 + d) :: toWords32 rest
  | _ => []

/-- Extend a 16-word block by `n` further message-schedule words. -/
def sha256ExtendFrom (ws : List Nat) : Nat → List Nat
  | 0 => ws
  | n + 1 =>
    let ws' := sha256ExtendFrom ws n
    let len := ws'.length
    ws' ++ [w32 (smallSigma1 (ws'.getD (len - 2) 0) + ws'.getD (len - 7) 0 +
                 smallSigma0 (ws'.getD (len - 15) 0) + ws'.getD (len - 16) 0)]

/-- The full 64-word message schedule of a 16-word block. -/
def sha256Schedule (block : List Nat) : List Nat := sha256ExtendFrom block 48

/-- One SHA-256 round on the eight-word working state. -/
def sha256Round (st : List Nat) (kw : Nat × Nat) : List Nat :=
  match st with
  | [a, b, c, d, e, f, g, h] =>
    let t1 := w32 (h + bigSigma1 e + ch32 e f g + kw.1 + kw.2)
    let t2 := w32 (bigSigma0 a + maj32 a b c)
    [w32 (t1 + t2), a, b, c, w32 (d + t1), e, f, g]
  | other => other

/-- Compress one 16-word block into the hash state. -/
def sha256Compress (h : List Nat) (block : List Nat) : List Nat :=
  let st := (sha256K.zip (sha256Schedule block)).foldl sha256Round h
  (h.zip st).map (fun p => w32 (p.1 + p.2))

/-- Fold the compression function over `n` consecutive 16-word blocks. -/
def sha256Blocks (h : List Nat) (ws : List Nat) : Nat → List Nat
  | 0 => h
  | n + 1 => sha256Blocks (sha256Compress h (ws.take 16)) (ws.drop 16) n

/-- SHA-256 digest of a byte list, as 32 bytes. -/
def sha256Bytes (msg : List Nat) : List Nat :=
  let ws := toWords32 (sha256pad msg)
  (sha256Blocks sha256H0 ws (ws.length / 16)).foldr (fun h acc => beBytes 4 h ++ acc) []

/-- Lowercase hex digit for a value below 16. -/
def hexDigitChar (n : Nat) : Char := if n < 10 then Char.ofNat (48 + n) else Char.ofNat (87 + n)

/-- Lowercase hex encoding of a byte list, as produced by a %x format verb. -/
def bytesToHex (bs : List Nat) : String :=
  String.mk (bs.foldr (fun b acc => hexDigitChar (b / 16) :: hexDigitChar (b % 16) :: acc) [])

/-- Bytes of an ASCII string, modelling the []byte conversion applied to a JTI. -/
def strBytes (s : String) : List Nat := s.data.map Char.toNat

/-- Hex SHA-256 signature of a string: fmt.Sprintf("%x", sha256.Sum256([]byte(s))). -/
def sha256hex (s : String) : String := bytesToHex (sha256Bytes (strBytes s))

/-! ## Client registry (OpenIDConnectStore client map) -/

/-- Authorization policy level (authorization.Level): an ordered enum with
two-factor as the strictest satisfiable level. -/
inductive Level
  | bypass
  | oneFactor
  | twoFactor
  | denied
deriving DecidableEq

/-- A registered OIDC client.  Only the attributes the verified operations
read are modelled: the client ID and its required authorization policy. -/
structure Client where
  id : String
  policy : Level
deriving DecidableEq

/-- Association-list lookup keyed by strings, modelling a Go map read. -/
def lookupStr {α : Type} : List (String × α) → String → Option α
  | [], _ => none
  | (k, v) :: rest, key => if k = key then some v else lookupStr rest key

/-- The in-memory client registry of the OpenIDConnectStore (the clients map;
the storage provider's tables are passed to each operation explicitly). -/
structure OpenIDConnectStore where
  clients : List (String × Client)
deriving DecidableEq

/-- GetFullClient returns the client matching the provided id; a missing key
yields none, modelling the (nil, fosite.ErrNotFound) return. -/
def OpenIDConnectStore.GetFullClient (s : OpenIDConnectStore) (id : String) : Option Client :=
  lookupStr s.clients id

/-- GetClientPolicy retrieves the policy from the client with the matching id,
returning the two-factor level when GetFullClient fails. -/
def OpenIDConnectStore.GetClientPolicy (s : OpenIDConnectStore) (id : String) : Level :=
  match s.GetFullClient id with
  | none => Level.twoFactor
  | some client => client.policy

/-! ## Token/session store (five session kinds over one physical shape) -/

/-- The session-kind discriminator (storage.OAuth2SessionType). -/
inductive OAuth2SessionType
  | authorizeCode
  | accessToken
  | refreshToken
  | pkceChallenge
  | openIDConnect
deriving DecidableEq

/-- The fosite-style authorization request carried by a session row; the
request ID groups sibling tokens of one grant, content stands for the rest of
the serialized request. -/
structure OAuth2Request where
  requestID : String
  content : String
deriving DecidableEq

/-- A stored session row (model.OAuth2Session): signature key, grouping
request ID, active flag and the serialized original request. -/
structure OAuth2Session where
  signature : String
  requestID : String
  active : Bool
  request : OAuth2Request
deriving DecidableEq

/-- The provider's session table, keyed by (kind, signature). -/
abbrev SessionTable := List ((OAuth2SessionType × String) × OAuth2Session)

/-- Association-list lookup on the session table. -/
def lookupSession : SessionTable → OAuth2SessionType × String → Option OAuth2Session
  | [], _ => none
  | e :: rest, key => if e.1 = key then some e.2 else lookupSession rest key

/-- Modelled from the spec: the storage provider's LoadOAuth2Session, a point
read of the row stored under (kind, signature); an absent row models the
sql.ErrNoRows outcome. -/
def LoadOAuth2Session (st : SessionTable) (t : OAuth2SessionType) (signature : String) :
    Option OAuth2Session :=
  lookupSession st (t, signature)

/-- Modelled from the spec: the storage provider's DeactivateOAuth2Session,
which marks the row under (kind, signature) inactive without deleting it. -/
def DeactivateOAuth2Session (st : SessionTable) (t : OAuth2SessionType) (signature : String) :
    SessionTable :=
  st.map fun e => if e.1 = (t, signature) then (e.1, { e.2 with active := false }) else e

/-- Modelled from the spec: the storage provider's RevokeOAuth2Session; per
the data model sessions are deactivated, not deleted, on single-token
revocation, so it acts like deactivation by (kind, signature). -/
def RevokeOAuth2Session (st : SessionTable) (t : OAuth2SessionType) (signature : String) :
    SessionTable :=
  DeactivateOAuth2Session st t signature

/-- Modelled from the spec: the storage provider's
DeactivateOAuth2SessionByRequestID, deactivating every row of the given kind
sharing the request ID. -/
def DeactivateOAuth2SessionByRequestID (st : SessionTable) (t : OAuth2SessionType)
    (requestID : String) : SessionTable :=
  st.map fun e =>
    if e.1.1 = t ∧ e.2.requestID = requestID then (e.1, { e.2 with active := false }) else e

/-- Modelled from the spec: the storage provider's SaveOAuth2Session, failing
(none) with a conflict when the (kind, signature) pair already exists. -/
def SaveOAuth2Session (st : SessionTable) (t : OAuth2SessionType) (session : OAuth2Session) :
    Option SessionTable :=
  match LoadOAuth2Session st t session.signature with
  | some _ => none
  | none => some (((t, session.signature), session) :: st)

/-- Modelled from the spec: model.NewOAuth2SessionFromRequest builds an active
session row from a signature and a request. -/
def NewOAuth2SessionFromRequest (signature : String) (r : OAuth2Request) : OAuth2Session :=
  { signature := signature, requestID := r.requestID, active := true, request := r }

/-- Modelled from the spec: model.OAuth2Session.ToRequest deserializes the
stored request; on rows built by the save path the stored content is returned
intact. -/
def OAuth2Session.ToRequest (m : OAuth2Session) : Option OAuth2Request := some m.request

/-- The (requester, error) pair returned by the load path, one constructor per
return statement of loadSessionBySignature: (nil, fosite.ErrNotFound),
(nil, deserialization error), (r, fosite.ErrInvalidatedAuthorizeCode) and
(r, nil). -/
inductive LoadSessionResult
  | errNotFound
  | errToRequest
  | invalidatedAuthorizeCode (r : OAuth2Request)
  | ok (r : OAuth2Request)
deriving DecidableEq

/-- loadSessionBySignature loads the row under (kind, signature), returning
NotFound when absent, and the stored request tagged with the invalidated
authorize-code error when the row is inactive and the kind is AuthorizeCode. -/
def loadSessionBySignature (st : SessionTable) (sessionType : OAuth2SessionType)
    (signature : String) : LoadSessionResult :=
  match LoadOAuth2Session st sessionType signature with
  | none => LoadSessionResult.errNotFound
  | some sessionModel =>
    match sessionModel.ToRequest with
    | none => LoadSessionResult.errToRequest
    | some r =>
      if sessionModel.active = false ∧ sessionType = OAuth2SessionType.authorizeCode then
        LoadSessionResult.invalidatedAuthorizeCode r
      else
        LoadSessionResult.ok r

/-- saveSession builds the session row from the request and saves it under the
given kind and signature. -/
def saveSession (st : SessionTable) (sessionType : OAuth2SessionType) (signature : String)
    (r : OAuth2Request) : Option SessionTable :=
  SaveOAuth2Session st sessionType (NewOAuth2SessionFromRequest signature r)

/-- revokeSessionBySignature delegates to the provider's revocation by
(kind, signature). -/
def revokeSessionBySignature (st : SessionTable) (sessionType : OAuth2SessionType)
    (signature : String) : SessionTable :=
  RevokeOAuth2Session st sessionType signature

/-- CreateAuthorizeCodeSession stores the authorization request for a code. -/
def CreateAuthorizeCodeSession (st : SessionTable) (code : String) (r : OAuth2Request) :
    Option SessionTable :=
  saveSession st OAuth2SessionType.authorizeCode code r

/-- InvalidateAuthorizeCodeSession deactivates the AuthorizeCode row for a
used code. -/
def InvalidateAuthorizeCodeSession (st : SessionTable) (code : String) : SessionTable :=
  DeactivateOAuth2Session st OAuth2SessionType.authorizeCode code

/-- GetAuthorizeCodeSession hydrates the session stored for a code. -/
def GetAuthorizeCodeSession (st : SessionTable) (code : String) : LoadSessionResult :=
  loadSessionBySignature st OAuth2SessionType.authorizeCode code

/-- CreatePKCERequestSession stores the request for a PKCE challenge. -/
def CreatePKCERequestSession (st : SessionTable) (signature : String) (r : OAuth2Request) :
    Option SessionTable :=
  saveSession st OAuth2SessionType.pkceChallenge signature r

/-- DeletePKCERequestSession as written in the source: it revokes under the
AccessToken kind, not the PKCEChallenge kind. -/
def DeletePKCERequestSession (st : SessionTable) (signature : String) : SessionTable :=
  revokeSessionBySignature st OAuth2SessionType.accessToken signature

/-- GetPKCERequestSession loads the request stored for a PKCE challenge. -/
def GetPKCERequestSession (st : SessionTable) (signature : String) : LoadSessionResult :=
  loadSessionBySignature st OAuth2SessionType.pkceChallenge signature

/-- CreateOpenIDConnectSession stores the request for an authorize code of the
explicit OIDC flow. -/
def CreateOpenIDConnectSession (st : SessionTable) (authorizeCode : String) (r : OAuth2Request) :
    Option SessionTable :=
  saveSession st OAuth2SessionType.openIDConnect authorizeCode r

/-- DeleteOpenIDConnectSession as written in the source: it revokes under the
AccessToken kind, not the OpenIDConnect kind. -/
def DeleteOpenIDConnectSession (st : SessionTable) (authorizeCode : String) : SessionTable :=
  revokeSessionBySignature st OAuth2SessionType.accessToken authorizeCode

/-- GetOpenIDConnectSession loads the request stored for an authorize code. -/
def GetOpenIDConnectSession (st : SessionTable) (authorizeCode : String) : LoadSessionResult :=
  loadSessionBySignature st OAuth2SessionType.openIDConnect authorizeCode

/-- RevokeRefreshToken deactivates every RefreshToken row sharing the given
request ID. -/
def RevokeRefreshToken (st : SessionTable) (requestID : String) : SessionTable :=
  DeactivateOAuth2SessionByRequestID st OAuth2SessionType.refreshToken requestID

/-- RevokeRefreshTokenMaybeGracePeriod delegates to RevokeRefreshToken,
discarding the signature argument. -/
def RevokeRefreshTokenMaybeGracePeriod (st : SessionTable) (requestID : String)
    (signature : String) : SessionTable :=
  RevokeRefreshToken st requestID

/-! ## Replay ledger (blacklisted JTIs for signed client assertions) -/

/-- A blacklisted-JTI row (model.OAuth2BlacklistedJTI): the SHA-256 signature
of the JTI and its expiry instant, with time modelled as Nat. -/
structure BlacklistedJTI where
  signature : String
  expiresAt : Nat
deriving DecidableEq

/-- The provider's blacklisted-JTI table, keyed by the JTI signature. -/
abbrev JTITable := List (String × BlacklistedJTI)

/-- Modelled from the spec: the storage provider's LoadOAuth2BlacklistedJTI, a
point read by signature; an absent row models the sql.ErrNoRows outcome. -/
def LoadOAuth2BlacklistedJTI (st : JTITable) (signature : String) : Option BlacklistedJTI :=
  lookupStr st signature

/-- The error result of the replay check, one constructor per return
statement: nil and fosite.ErrJTIKnown (the provider being modelled as a pure
table, the transient-storage-error return has no counterpart). -/
inductive JTICheckResult
  | ok
  | errJTIKnown
deriving DecidableEq

/-- ClientAssertionJWTValid hashes the JTI, reads the ledger by the digest and
rejects only an entry whose expiry lies strictly in the future. -/
def ClientAssertionJWTValid (st : JTITable) (now : Nat) (jti : String) : JTICheckResult :=
  let signature := sha256hex jti
  match LoadOAuth2BlacklistedJTI st signature with
  | none => JTICheckResult.ok
  | some blacklistedJTI =>
    if now < blacklistedJTI.expiresAt then JTICheckResult.errJTIKnown else JTICheckResult.ok

/-- Modelled from the spec: model.NewOAuth2BlacklistedJTI stores the SHA-256
signature of the JTI, never the raw value, together with the expiry. -/
def NewOAuth2BlacklistedJTI (jti : String) (exp : Nat) : BlacklistedJTI :=
  { signature := sha256hex jti, expiresAt := exp }

/-- Modelled from the spec: the storage provider's SaveOAuth2BlacklistedJTI
upserts the row under its signature. -/
def SaveOAuth2BlacklistedJTI (st : JTITable) (b : BlacklistedJTI) : JTITable :=
  (b.signature, b) :: st

/-- SetClientAssertionJWT marks a JTI as known until the given expiry. -/
def SetClientAssertionJWT (st : JTITable) (jti : String) (exp : Nat) : JTITable :=
  SaveOAuth2BlacklistedJTI st (NewOAuth2BlacklistedJTI jti exp)

/-! ## Opaque subject directory -/

/-- A pairwise opaque subject row (model.UserOpaqueIdentifier), keyed by the
(service, sector ID, username) triple; the UUID is modelled as a string. -/
structure UserOpaqueIdentifier where
  service : String
  sectorID : String
  username : String
  identifier : String
deriving DecidableEq

/-- Storage-layer errors surfaced to GenerateOpaqueUserID; duplicateKey is the
uniqueness-conflict error of the triple's unique constraint. -/
inductive StorageErr
  | duplicateKey
  | otherErr
deriving DecidableEq

/-- GenerateOpaqueUserID either retrieves or creates an opaque user id.  The
provider calls are oracle inputs: loadResult is the outcome of
LoadUserOpaqueIdentifierBySignature, newID the identifier built by
model.NewUserOpaqueIdentifier, and saveResult the outcome of
SaveUserOpaqueIdentifier.  The control flow mirrors the source: a load error
or a save error is returned as-is; there is no re-read after a failed save. -/
def GenerateOpaqueUserID (loadResult : Except StorageErr (Option UserOpaqueIdentifier))
    (newID : UserOpaqueIdentifier) (saveResult : Except StorageErr Unit) :
    Except StorageErr UserOpaqueIdentifier :=
  match loadResult with
  | Except.error e => Except.error e
  | Except.ok (some opaqueID) => Except.ok opaqueID
  | Except.ok none =>
    match saveResult with
    | Except.error e => Except.error e
    | Except.ok _ => Except.ok newID

/-! ## Consent engine (oidcConsentPOST and its collaborators) -/

/-- A consent challenge row (model.OAuth2ConsentSession).  The serialized
original-request form is carried as an already-encoded query string, with none
standing for a form that fails to parse; responded/authorized encode the
tri-state decision (pending when responded is false, granted/denied by
authorized once responded). -/
structure OAuth2ConsentSession where
  challengeID : String
  clientID : String
  requestedScopes : List String
  requestedAudience : List String
  grantedScopes : List String
  grantedAudience : List String
  form : Option String
  responded : Bool
  authorized : Bool
deriving DecidableEq

/-- The provider's consent-session table, keyed by challenge ID. -/
abbrev ConsentTable := List (String × OAuth2ConsentSession)

/-- Modelled from the spec: the storage provider's
LoadOAuth2ConsentSessionByChallengeID, a point read by challenge ID. -/
def LoadOAuth2ConsentSessionByChallengeID (ct : ConsentTable) (challengeID : String) :
    Option OAuth2ConsentSession :=
  lookupStr ct challengeID

/-- Modelled from the spec: the storage provider's
SaveOAuth2ConsentSessionResponse persists the decision carried by the consent
session together with the authorized verdict; the update is modelled by
prepending, so later lookups see the latest write. -/
def SaveOAuth2ConsentSessionResponse (ct : ConsentTable) (consent : OAuth2ConsentSession)
    (authorized : Bool) : ConsentTable :=
  (consent.challengeID, { consent with responded := true, authorized := authorized }) :: ct

/-- GetForm parses the consent session's stored original-request form; none
models a parse failure. -/
def OAuth2ConsentSession.GetForm (consent : OAuth2ConsentSession) : Option String :=
  consent.form

/-- The caller's authentication context: username, current authentication
level (0 none, 1 one-factor, 2 two-factor) and the optional pending consent
challenge reference. -/
structure UserSession where
  username : String
  authenticationLevel : Nat
  consentChallengeID : Option String

/-- The parsed JSON body of the consent POST. -/
structure ConsentPostRequestBody where
  clientID : String
  acceptOrReject : String

/-- The accept decision verb. -/
def accept : String := "accept"

/-- The reject decision verb. -/
def reject : String := "reject"

/-- Modelled from the spec: oidc.AuthorizationPath, the authorization endpoint
path combined into the consent redirect target. -/
def AuthorizationPath : String := "/api/oidc/authorization"

/-- Modelled from the spec: utils.IsStringInSlice, exact string membership. -/
def IsStringInSlice (needle : String) (haystack : List String) : Bool :=
  match haystack with
  | [] => false
  | s :: rest => if s = needle then true else IsStringInSlice needle rest

/-- Modelled from the spec: a client's authentication-level sufficiency check,
comparing the caller's level against the client's required policy level. -/
def Client.IsAuthenticationLevelSufficient (client : Client) (level : Nat) : Bool :=
  match client.policy with
  | Level.bypass => true
  | Level.oneFactor => decide (1 ≤ level)
  | Level.twoFactor => decide (2 ≤ level)
  | Level.denied => false

/-- The externally visible effect of the consent POST handler, one constructor
per reply the handler writes: the generic operation-failed JSON error, a
forbidden reply, a bad-request reply, and the JSON body carrying the redirect
URI. -/
inductive ConsentPostReply
  | jsonErrorOperationFailed
  | forbidden
  | badRequest
  | jsonBody (redirectURI : String)
deriving DecidableEq

/-- oidcConsentGetSessionsAndClient resolves the caller's pending challenge to
its consent session and client; none models the ret = true early exit, which
replies forbidden in every failure case. -/
def oidcConsentGetSessionsAndClient (store : OpenIDConnectStore) (ct : ConsentTable)
    (userSession : UserSession) : Option (OAuth2ConsentSession × Client) :=
  match userSession.consentChallengeID with
  | none => none
  | some challengeID =>
    match LoadOAuth2ConsentSessionByChallengeID ct challengeID with
    | none => none
    | some consent =>
      match store.GetFullClient consent.clientID with
      | none => none
      | some client => some (consent, client)

/-- oidcConsentPOST: parse the body, resolve session and client, check the
authentication level, reject a client-ID mismatch, parse the stored form, run
the accept/reject switch (accept mutates the granted scopes and audience and
needs the external root URL, reject leaves the root URL empty), then persist
the decision and reply with the redirect target.  The unparsed body and the
unavailable external root URL are oracle inputs (none models the respective
failure). -/
def oidcConsentPOST (store : OpenIDConnectStore) (ct : ConsentTable) (userSession : UserSession)
    (body : Option ConsentPostRequestBody) (externalRootURL : Option String) :
    ConsentPostReply × ConsentTable :=
  match body with
  | none => (ConsentPostReply.jsonErrorOperationFailed, ct)
  | some body =>
    match oidcConsentGetSessionsAndClient store ct userSession with
    | none => (ConsentPostReply.forbidden, ct)
    | some (consent, client) =>
      if client.IsAuthenticationLevelSufficient userSession.authenticationLevel = false then
        (ConsentPostReply.forbidden, ct)
      else if consent.clientID ≠ body.clientID then
        (ConsentPostReply.jsonErrorOperationFailed, ct)
      else
        match consent.GetForm with
        | none => (ConsentPostReply.jsonErrorOperationFailed, ct)
        | some form =>
          let outcome : Except ConsentPostReply (OAuth2ConsentSession × Bool × String) :=
            if body.acceptOrReject = accept then
              match externalRootURL with
              | none => Except.error ConsentPostReply.jsonErrorOperationFailed
              | some rootURL =>
                let consent := { consent with
                  grantedScopes := consent.requestedScopes,
                  grantedAudience := consent.requestedAudience }
                let consent :=
                  if IsStringInSlice consent.clientID consent.grantedAudience = false then
                    { consent with grantedAudience := consent.grantedAudience ++ [consent.clientID] }
                  else consent
                Except.ok (consent, true, rootURL)
            else if body.acceptOrReject = reject then
              Except.ok (consent, false, "")
            else
              Except.error ConsentPostReply.badRequest
          match outcome with
          | Except.error reply => (reply, ct)
          | Except.ok (consent, authorized, rootURL) =>
            (ConsentPostReply.jsonBody (rootURL ++ AuthorizationPath ++ "?" ++ form),
             SaveOAuth2ConsentSessionResponse ct consent authorized)

/-! ## Helper lemmas -/

/-- Lookup after deactivation by the same (kind, signature) key sees the row
with its active flag cleared. -/
theorem lookupSession_deactivate_self (st : SessionTable) (t : OAuth2SessionType) (sig : String) :
    lookupSession (DeactivateOAuth2Session st t sig) (t, sig) =
      (lookupSession st (t, sig)).map (fun m => { m with active := false }) := by
  induction st with
  | nil => rfl
  | cons e rest ih =>
    by_cases h : e.1 = (t, sig)
    · simp [DeactivateOAuth2Session, lookupSession, h]
    · simp only [DeactivateOAuth2Session, List.map_cons] at ih ⊢
      rw [if_neg h]
      simp only [lookupSession, if_neg h]
      exact ih

/-- Resolving the caller's challenge succeeds when the challenge reference,
the consent row and the client all resolve. -/
theorem oidcConsentGetSessionsAndClient_resolves (store : OpenIDConnectStore) (ct : ConsentTable)
    (userSession : UserSession) {challengeID : String} {consent : OAuth2ConsentSession}
    {client : Client} (hcid : userSession.consentChallengeID = some challengeID)
    (hload : LoadOAuth2ConsentSessionByChallengeID ct challengeID = some consent)
    (hclient : store.GetFullClient consent.clientID = some client) :
    oidcConsentGetSessionsAndClient store ct userSession = some (consent, client) := by
  simp only [oidcConsentGetSessionsAndClient, hcid, hload, hclient]

/-! ## Claims -/

/-- C9: for every client ID that cannot be resolved in the client registry,
GetClientPolicy returns the strictest level (two-factor); for every registered
client it returns that client's configured policy level. -/
theorem getClientPolicy_default_twoFactor (s : OpenIDConnectStore) (id : String) :
    (s.GetFullClient id = none → s.GetClientPolicy id = Level.twoFactor) ∧
    (∀ client, s.GetFullClient id = some client → s.GetClientPolicy id = client.policy) := by
  unfold OpenIDConnectStore.GetClientPolicy
  constructor
  · intro h
    rw [h]
  · intro client h
    rw [h]

/-- Demo registry for the C9 witness. -/
def c9Registry : OpenIDConnectStore := { clients := [("app1", { id := "app1", policy := Level.oneFactor })] }

/-- C9 witness: a registered client yields its configured level, an unknown
client ID yields two-factor. -/
theorem getClientPolicy_default_twoFactor_witness :
    c9Registry.GetClientPolicy "app1" = Level.oneFactor ∧
    c9Registry.GetClientPolicy "missing" = Level.twoFactor :=
  ⟨(getClientPolicy_default_twoFactor c9Registry "app1").2
      { id := "app1", policy := Level.oneFactor } (by decide),
   (getClientPolicy_default_twoFactor c9Registry "missing").1 (by decide)⟩

/-- C10: RevokeRefreshTokenMaybeGracePeriod coincides with RevokeRefreshToken
on every store state and pair of arguments — the signature argument is ignored
and no grace period is applied — and every RefreshToken row of the lineage is
inactive immediately afterwards. -/
theorem revokeRefreshTokenMaybeGracePeriod_eq (st : SessionTable)
    (requestID signature : String) :
    RevokeRefreshTokenMaybeGracePeriod st requestID signature = RevokeRefreshToken st requestID ∧
    ∀ e, e ∈ RevokeRefreshTokenMaybeGracePeriod st requestID signature →
      e.1.1 = OAuth2SessionType.refreshToken → e.2.requestID = requestID →
      e.2.active = false := by
  refine ⟨rfl, ?_⟩
  intro e he h1 h2
  simp only [RevokeRefreshTokenMaybeGracePeriod, RevokeRefreshToken,
    DeactivateOAuth2SessionByRequestID, List.mem_map] at he
  obtain ⟨a, _, hae⟩ := he
  by_cases hc : a.1.1 = OAuth2SessionType.refreshToken ∧ a.2.requestID = requestID
  · rw [if_pos hc] at hae
    rw [← hae]
  · rw [if_neg hc] at hae
    rw [← hae] at h1 h2
    exact absurd ⟨h1, h2⟩ hc

/-- Demo refresh-token row for the C10 witness. -/
def c10Session : OAuth2Session :=
  { signature := "s1", requestID := "r1", active := true,
    request := { requestID := "r1", content := "refresh grant" } }

/-- Demo session table for the C10 witness. -/
def c10Table : SessionTable := [((OAuth2SessionType.refreshToken, "s1"), c10Session)]

/-- C10 witness: on a concrete store the two revocations agree and the lineage
row comes out inactive. -/
theorem revokeRefreshTokenMaybeGracePeriod_eq_witness :
    RevokeRefreshTokenMaybeGracePeriod c10Table "r1" "sigX" = RevokeRefreshToken c10Table "r1" ∧
    ((OAuth2SessionType.refreshToken, "s1"), { c10Session with active := false }).2.active = false :=
  ⟨(revokeRefreshTokenMaybeGracePeriod_eq c10Table "r1" "sigX").1,
   (revokeRefreshTokenMaybeGracePeriod_eq c10Table "r1" "sigX").2
     ((OAuth2SessionType.refreshToken, "s1"), { c10Session with active := false })
     (by decide) (by decide) (by decide)⟩

/-- Fresh identifier used by the C8 theorems. -/
def c8NewID : UserOpaqueIdentifier :=
  { service := "openid", sectorID := "", username := "john", identifier := "uuid-new" }

/-- C8 counterexample: with no stored identifier and a save failing with the
uniqueness-conflict error, GenerateOpaqueUserID returns that error — it does
not re-read and return the winner's UUID. -/
theorem generateOpaqueUserID_conflict_counterexample :
    GenerateOpaqueUserID (Except.ok none) c8NewID (Except.error StorageErr.duplicateKey) =
      Except.error StorageErr.duplicateKey := by
  rfl

/-- C8 amended: when the initial lookup finds no identifier and the save fails
(in particular with the uniqueness-conflict error), GenerateOpaqueUserID
propagates the save error to the caller with no re-read; only a lookup hit
returns the already-persisted identifier. -/
theorem generateOpaqueUserID_save_error_propagates (newID : UserOpaqueIdentifier)
    (e : StorageErr) :
    GenerateOpaqueUserID (Except.ok none) newID (Except.error e) = Except.error e ∧
    ∀ existing saveResult,
      GenerateOpaqueUserID (Except.ok (some existing)) newID saveResult = Except.ok existing := by
  exact ⟨rfl, fun _ _ => rfl⟩

/-- Stored PKCE row for the C4 theorem. -/
def c4PKCESession : OAuth2Session :=
  { signature := "sig1", requestID := "rp", active := true,
    request := { requestID := "rp", content := "pkce request" } }

/-- Stored OIDC row for the C4 theorem. -/
def c4OIDCSession : OAuth2Session :=
  { signature := "sig2", requestID := "ro", active := true,
    request := { requestID := "ro", content := "oidc request" } }

/-- Session table holding one PKCE row and one OIDC row and no AccessToken
rows, for the C4 theorem. -/
def c4Table : SessionTable :=
  [((OAuth2SessionType.pkceChallenge, "sig1"), c4PKCESession),
   ((OAuth2SessionType.openIDConnect, "sig2"), c4OIDCSession)]

/-- C4: the per-kind delete operations miss their own kind.  On a store with a
saved PKCE row and a saved OIDC row, DeletePKCERequestSession and
DeleteOpenIDConnectSession (which revoke under the AccessToken kind) leave the
store unchanged, and both rows are still loaded as active sessions. -/
theorem deleteSessions_wrong_kind :
    DeletePKCERequestSession c4Table "sig1" = c4Table ∧
    GetPKCERequestSession (DeletePKCERequestSession c4Table "sig1") "sig1" =
      LoadSessionResult.ok c4PKCESession.request ∧
    DeleteOpenIDConnectSession c4Table "sig2" = c4Table ∧
    GetOpenIDConnectSession (DeleteOpenIDConnectSession c4Table "sig2") "sig2" =
      LoadSessionResult.ok c4OIDCSession.request := by
  decide

/-- C2: a (kind, signature) pair with no stored row loads as NotFound, and a
deactivated AuthorizeCode row still loads, returning the stored original
request content tagged with the invalidated-authorize-code signal. -/
theorem loadBySignature_notFound_and_alreadyUsed (st : SessionTable) (t : OAuth2SessionType)
    (sig : String) :
    (LoadOAuth2Session st t sig = none →
      loadSessionBySignature st t sig = LoadSessionResult.errNotFound) ∧
    (∀ m, LoadOAuth2Session st OAuth2SessionType.authorizeCode sig = some m →
      GetAuthorizeCodeSession (InvalidateAuthorizeCodeSession st sig) sig =
        LoadSessionResult.invalidatedAuthorizeCode m.request) := by
  constructor
  · intro h
    unfold loadSessionBySignature
    rw [h]
  · intro m hm
    unfold GetAuthorizeCodeSession InvalidateAuthorizeCodeSession loadSessionBySignature
      LoadOAuth2Session
    rw [lookupSession_deactivate_self st OAuth2SessionType.authorizeCode sig]
    unfold LoadOAuth2Session at hm
    rw [hm]
    simp [OAuth2Session.ToRequest]

/-- Stored authorize-code request for the C2 witness. -/
def c2Request : OAuth2Request := { requestID := "r2", content := "original authorize request" }

/-- Session table holding one active authorize-code row for the C2 witness. -/
def c2Table : SessionTable :=
  [((OAuth2SessionType.authorizeCode, "code1"), NewOAuth2SessionFromRequest "code1" c2Request)]

/-- C2 witness: a missing signature loads as NotFound, and invalidating the
stored code then loading it returns the original request with the
invalidated-authorize-code signal. -/
theorem loadBySignature_notFound_and_alreadyUsed_witness :
    loadSessionBySignature c2Table OAuth2SessionType.accessToken "code1" =
      LoadSessionResult.errNotFound ∧
    GetAuthorizeCodeSession (InvalidateAuthorizeCodeSession c2Table "code1") "code1" =
      LoadSessionResult.invalidatedAuthorizeCode c2Request :=
  ⟨(loadBySignature_notFound_and_alreadyUsed c2Table OAuth2SessionType.accessToken "code1").1
      (by decide),
   (loadBySignature_notFound_and_alreadyUsed c2Table OAuth2SessionType.authorizeCode "code1").2
      (NewOAuth2SessionFromRequest "code1" c2Request) (by decide)⟩

/-- C7: the replay check reads the ledger by the SHA-256 digest of the JTI and
rejects with the JTI-known error exactly when the entry stored under that
digest has an expiry strictly in the future; an absent entry or a past expiry
yields success.  Marking a JTI used with some expiry makes a later check at
instant now fail precisely when now is before that expiry. -/
theorem clientAssertionJWTValid_replay (st : JTITable) (now : Nat) (jti : String) :
    (ClientAssertionJWTValid st now jti = JTICheckResult.errJTIKnown ↔
      ∃ e, LoadOAuth2BlacklistedJTI st (sha256hex jti) = some e ∧ now < e.expiresAt) ∧
    (ClientAssertionJWTValid st now jti = JTICheckResult.ok ↔
      ∀ e, LoadOAuth2BlacklistedJTI st (sha256hex jti) = some e → e.expiresAt ≤ now) ∧
    (∀ exp, ClientAssertionJWTValid (SetClientAssertionJWT st jti exp) now jti =
      if now < exp then JTICheckResult.errJTIKnown else JTICheckResult.ok) := by
  refine ⟨?_, ?_, ?_⟩
  · simp only [ClientAssertionJWTValid]
    cases hload : LoadOAuth2BlacklistedJTI st (sha256hex jti) with
    | none => simp
    | some e =>
      by_cases hlt : now < e.expiresAt
      · simp [hlt]
      · simp [hlt]
  · simp only [ClientAssertionJWTValid]
    cases hload : LoadOAuth2BlacklistedJTI st (sha256hex jti) with
    | none => simp
    | some e =>
      by_cases hlt : now < e.expiresAt
      · simp [hlt]
      · simp [hlt]
        omega
  · intro exp
    simp only [ClientAssertionJWTValid, SetClientAssertionJWT, SaveOAuth2BlacklistedJTI,
      NewOAuth2BlacklistedJTI, LoadOAuth2BlacklistedJTI, lookupStr, if_pos]

/-- Ledger entry for the C7 witness: the JTI was marked used until instant 100. -/
def c7Entry : BlacklistedJTI := { signature := sha256hex "jti-1", expiresAt := 100 }

/-- Ledger table for the C7 witness, keyed by the SHA-256 digest of the JTI. -/
def c7Table : JTITable := [(sha256hex "jti-1", c7Entry)]

/-- C7 witness: at instant 50 the future-expiry entry is rejected as a replay;
at instant 100 the expiry has passed and the same JTI checks out clean; a JTI
with no entry under its digest also checks out clean. -/
theorem clientAssertionJWTValid_replay_witness :
    ClientAssertionJWTValid c7Table 50 "jti-1" = JTICheckResult.errJTIKnown ∧
    ClientAssertionJWTValid c7Table 100 "jti-1" = JTICheckResult.ok ∧
    ClientAssertionJWTValid c7Table 50 "jti-2" = JTICheckResult.ok :=
  ⟨(clientAssertionJWTValid_replay c7Table 50 "jti-1").1.mpr
      ⟨c7Entry, by simp [LoadOAuth2BlacklistedJTI, c7Table, lookupStr], by decide⟩,
   (clientAssertionJWTValid_replay c7Table 100 "jti-1").2.1.mpr
      (by
        intro e he
        simp only [LoadOAuth2BlacklistedJTI, c7Table, lookupStr, if_pos,
          Option.some.injEq] at he
        rw [← he]
        decide),
   (clientAssertionJWTValid_replay c7Table 50 "jti-2").2.1.mpr
      (by
        intro e he
        simp only [LoadOAuth2BlacklistedJTI, c7Table, lookupStr] at he
        rw [if_neg (by decide)] at he
        cases he)⟩

/-- Shared accept-branch computation: with every guard passing, the handler
replies with the combined redirect target and persists the granted consent. -/
theorem oidcConsentPOST_accept_run (store : OpenIDConnectStore) (ct : ConsentTable)
    (userSession : UserSession) (body : ConsentPostRequestBody) (rootURL : String)
    (challengeID : String) (consent : OAuth2ConsentSession) (client : Client) (form : String)
    (hcid : userSession.consentChallengeID = some challengeID)
    (hload : LoadOAuth2ConsentSessionByChallengeID ct challengeID = some consent)
    (hkey : consent.challengeID = challengeID)
    (hclient : store.GetFullClient consent.clientID = some client)
    (hlevel : client.IsAuthenticationLevelSufficient userSession.authenticationLevel = true)
    (hmatch : consent.clientID = body.clientID)
    (hform : consent.GetForm = some form)
    (hverb : body.acceptOrReject = accept) :
    ∃ ct', oidcConsentPOST store ct userSession (some body) (some rootURL) =
        (ConsentPostReply.jsonBody (rootURL ++ AuthorizationPath ++ "?" ++ form), ct') ∧
      LoadOAuth2ConsentSessionByChallengeID ct' challengeID = some
        { consent with
          grantedScopes := consent.requestedScopes,
          grantedAudience :=
            if IsStringInSlice consent.clientID consent.requestedAudience = false then
              consent.requestedAudience ++ [consent.clientID]
            else consent.requestedAudience,
          responded := true,
          authorized := true } := by
  have hres := oidcConsentGetSessionsAndClient_resolves store ct userSession hcid hload hclient
  refine ⟨SaveOAuth2ConsentSessionResponse ct
      { consent with
        grantedScopes := consent.requestedScopes,
        grantedAudience :=
          if IsStringInSlice consent.clientID consent.requestedAudience = false then
            consent.requestedAudience ++ [consent.clientID]
          else consent.requestedAudience } true, ?_, ?_⟩
  · simp only [oidcConsentPOST, hres, hlevel, hform, hverb, ← hmatch]
    simp
    by_cases hmem : IsStringInSlice consent.clientID consent.requestedAudience = false
    · simp [hmem]
    · simp [hmem]
  · simp only [SaveOAuth2ConsentSessionResponse, LoadOAuth2ConsentSessionByChallengeID,
      lookupStr]
    split
    · split
      · simp [hkey]
      · simp [hkey]
    · simp_all [hkey]

/-- C1: on the accept verb, with the challenge, consent row, client,
authentication level, client-ID match, stored form and external root URL all
resolving, the handler persists the consent with granted scopes equal to the
requested scopes and granted audience equal to the requested audience plus the
session's own client ID when that ID is not already present, before replying
with the redirect target. -/
theorem consentAccept_grants_scopes_audience (store : OpenIDConnectStore) (ct : ConsentTable)
    (userSession : UserSession) (body : ConsentPostRequestBody) (rootURL : String)
    (challengeID : String) (consent : OAuth2ConsentSession) (client : Client) (form : String)
    (hcid : userSession.consentChallengeID = some challengeID)
    (hload : LoadOAuth2ConsentSessionByChallengeID ct challengeID = some consent)
    (hkey : consent.challengeID = challengeID)
    (hclient : store.GetFullClient consent.clientID = some client)
    (hlevel : client.IsAuthenticationLevelSufficient userSession.authenticationLevel = true)
    (hmatch : consent.clientID = body.clientID)
    (hform : consent.GetForm = some form)
    (hverb : body.acceptOrReject = accept) :
    ∃ ct', oidcConsentPOST store ct userSession (some body) (some rootURL) =
        (ConsentPostReply.jsonBody (rootURL ++ AuthorizationPath ++ "?" ++ form), ct') ∧
      LoadOAuth2ConsentSessionByChallengeID ct' challengeID = some
        { consent with
          grantedScopes := consent.requestedScopes,
          grantedAudience :=
            if IsStringInSlice consent.clientID consent.requestedAudience = false then
              consent.requestedAudience ++ [consent.clientID]
            else consent.requestedAudience,
          responded := true,
          authorized := true } :=
  oidcConsentPOST_accept_run store ct userSession body rootURL challengeID consent client form
    hcid hload hkey hclient hlevel hmatch hform hverb

/-- Demo client for the consent-flow witnesses: app1 requiring one factor. -/
def demoClient : Client := { id := "app1", policy := Level.oneFactor }

/-- Demo registry holding app1, for the consent-flow witnesses. -/
def demoStore : OpenIDConnectStore := { clients := [("app1", demoClient)] }

/-- Demo pending consent challenge: client app1 requested scopes openid and
profile with audience api. -/
def demoConsent : OAuth2ConsentSession :=
  { challengeID := "ch1", clientID := "app1", requestedScopes := ["openid", "profile"],
    requestedAudience := ["api"], grantedScopes := [], grantedAudience := [],
    form := some "scope=openid+profile", responded := false, authorized := false }

/-- Demo consent table holding the pending challenge. -/
def demoTable : ConsentTable := [("ch1", demoConsent)]

/-- Demo caller authenticated at one factor with the pending challenge. -/
def demoUser : UserSession :=
  { username := "john", authenticationLevel := 1, consentChallengeID := some "ch1" }

/-- Demo accept body naming the session's own client. -/
def demoAcceptBody : ConsentPostRequestBody := { clientID := "app1", acceptOrReject := "accept" }

/-- C1 witness: accepting the demo challenge persists granted scopes
openid+profile and granted audience api plus app1. -/
theorem consentAccept_grants_scopes_audience_witness :
    ∃ ct', oidcConsentPOST demoStore demoTable demoUser (some demoAcceptBody)
        (some "https://auth.example.com") =
      (ConsentPostReply.jsonBody
        "https://auth.example.com/api/oidc/authorization?scope=openid+profile", ct') ∧
      LoadOAuth2ConsentSessionByChallengeID ct' "ch1" = some
        { demoConsent with
          grantedScopes := ["openid", "profile"],
          grantedAudience := ["api", "app1"], responded := true, authorized := true } :=
  consentAccept_grants_scopes_audience demoStore demoTable demoUser demoAcceptBody
    "https://auth.example.com" "ch1" demoConsent demoClient "scope=openid+profile"
    rfl rfl rfl rfl rfl rfl rfl rfl

/-- C5: a decide whose body names a different client than the consent
session's own fails with the generic operation-failed reply and returns the
consent table unchanged — no persistence, no mutation of the session's granted
scopes, granted audience or decision state. -/
theorem consentDecide_clientMismatch_noMutation (store : OpenIDConnectStore) (ct : ConsentTable)
    (userSession : UserSession) (body : ConsentPostRequestBody)
    (externalRootURL : Option String) (challengeID : String)
    (consent : OAuth2ConsentSession) (client : Client)
    (hcid : userSession.consentChallengeID = some challengeID)
    (hload : LoadOAuth2ConsentSessionByChallengeID ct challengeID = some consent)
    (hclient : store.GetFullClient consent.clientID = some client)
    (hlevel : client.IsAuthenticationLevelSufficient userSession.authenticationLevel = true)
    (hmismatch : consent.clientID ≠ body.clientID) :
    oidcConsentPOST store ct userSession (some body) externalRootURL =
      (ConsentPostReply.jsonErrorOperationFailed, ct) := by
  have hres := oidcConsentGetSessionsAndClient_resolves store ct userSession hcid hload hclient
  simp only [oidcConsentPOST, hres, hlevel]
  simp [hmismatch]

/-- Demo decide body naming the wrong client app2, for the C5 witness. -/
def demoMismatchBody : ConsentPostRequestBody := { clientID := "app2", acceptOrReject := "accept" }

/-- C5 witness: deciding the demo app1 challenge with a body naming app2
fails with the generic error and leaves the table unchanged. -/
theorem consentDecide_clientMismatch_noMutation_witness :
    oidcConsentPOST demoStore demoTable demoUser (some demoMismatchBody)
        (some "https://auth.example.com") =
      (ConsentPostReply.jsonErrorOperationFailed, demoTable) :=
  consentDecide_clientMismatch_noMutation demoStore demoTable demoUser demoMismatchBody
    (some "https://auth.example.com") "ch1" demoConsent demoClient
    rfl rfl rfl rfl (by decide)

/-- A consent session already decided as granted (terminal), for the C3
counterexample. -/
def c3Consent : OAuth2ConsentSession :=
  { challengeID := "ch3", clientID := "app1", requestedScopes := ["openid"],
    requestedAudience := [], grantedScopes := ["openid"], grantedAudience := ["app1"],
    form := some "scope=openid", responded := true, authorized := true }

/-- Consent table holding the already-granted session, for the C3
counterexample. -/
def c3Table : ConsentTable := [("ch3", c3Consent)]

/-- Caller still referencing the already-granted challenge, for the C3
counterexample. -/
def c3User : UserSession :=
  { username := "john", authenticationLevel := 1, consentChallengeID := some "ch3" }

/-- Reject body for re-deciding the already-granted session. -/
def c3RejectBody : ConsentPostRequestBody := { clientID := "app1", acceptOrReject := "reject" }

/-- C3 counterexample: re-deciding the already-granted session with reject
does not fail — the handler replies with the redirect body and the persisted
decision flips from granted to denied. -/
theorem consentRedecide_terminal_counterexample :
    (oidcConsentPOST demoStore c3Table c3User (some c3RejectBody) none).1 =
      ConsentPostReply.jsonBody "/api/oidc/authorization?scope=openid" ∧
    LoadOAuth2ConsentSessionByChallengeID
        (oidcConsentPOST demoStore c3Table c3User (some c3RejectBody) none).2 "ch3" =
      some { c3Consent with authorized := false } := by
  decide

/-- C3 amended: the decision path has no already-decided guard — deciding a
consent session that is already terminal (responded) succeeds like a first
decision and overwrites the persisted outcome with the new verb's verdict. -/
theorem consentRedecide_terminal_overwrites (store : OpenIDConnectStore) (ct : ConsentTable)
    (userSession : UserSession) (body : ConsentPostRequestBody)
    (externalRootURL : Option String) (challengeID : String)
    (consent : OAuth2ConsentSession) (client : Client) (form : String)
    (hcid : userSession.consentChallengeID = some challengeID)
    (hload : LoadOAuth2ConsentSessionByChallengeID ct challengeID = some consent)
    (hkey : consent.challengeID = challengeID)
    (hclient : store.GetFullClient consent.clientID = some client)
    (hlevel : client.IsAuthenticationLevelSufficient userSession.authenticationLevel = true)
    (hmatch : consent.clientID = body.clientID)
    (hform : consent.GetForm = some form)
    (hterminal : consent.responded = true)
    (hverb : (body.acceptOrReject = accept ∧ ∃ r, externalRootURL = some r) ∨
      body.acceptOrReject = reject) :
    ∃ uri ct' consent2,
      oidcConsentPOST store ct userSession (some body) externalRootURL =
        (ConsentPostReply.jsonBody uri, ct') ∧
      LoadOAuth2ConsentSessionByChallengeID ct' challengeID = some consent2 ∧
      consent2.responded = true ∧
      (body.acceptOrReject = accept → consent2.authorized = true) ∧
      (body.acceptOrReject = reject → consent2.authorized = false) := by
  have hres := oidcConsentGetSessionsAndClient_resolves store ct userSession hcid hload hclient
  rcases hverb with ⟨haccept, r, hroot⟩ | hreject
  · subst hroot
    obtain ⟨ct', h1, h2⟩ := oidcConsentPOST_accept_run store ct userSession body r
      challengeID consent client form hcid hload hkey hclient hlevel hmatch hform haccept
    refine ⟨_, ct', _, h1, h2, by simp, fun _ => by simp, fun hr => ?_⟩
    rw [haccept] at hr
    exact absurd hr (by decide)
  · refine ⟨AuthorizationPath ++ "?" ++ form,
      SaveOAuth2ConsentSessionResponse ct consent false,
      { consent with responded := true, authorized := false }, ?_, ?_, by simp, fun ha => ?_,
      fun _ => by simp⟩
    · simp only [oidcConsentPOST, hres, hlevel, hform, hreject, ← hmatch]
      simp [accept, reject]
    · simp only [SaveOAuth2ConsentSessionResponse, LoadOAuth2ConsentSessionByChallengeID,
        lookupStr]
      simp [hkey]
    · rw [hreject] at ha
      exact absurd ha (by decide)

/-- C3 amended witness: re-rejecting the already-granted concrete session
succeeds and flips its verdict. -/
theorem consentRedecide_terminal_overwrites_witness :
    ∃ uri ct' consent2,
      oidcConsentPOST demoStore c3Table c3User (some c3RejectBody) none =
        (ConsentPostReply.jsonBody uri, ct') ∧
      LoadOAuth2ConsentSessionByChallengeID ct' "ch3" = some consent2 ∧
      consent2.responded = true ∧
      (c3RejectBody.acceptOrReject = accept → consent2.authorized = true) ∧
      (c3RejectBody.acceptOrReject = reject → consent2.authorized = false) :=
  consentRedecide_terminal_overwrites demoStore c3Table c3User c3RejectBody none "ch3"
    c3Consent demoClient "scope=openid" rfl rfl rfl rfl rfl rfl rfl rfl
    (Or.inr rfl)

/-- Reject body naming the session's own client, for the C6 theorems. -/
def demoRejectBody : ConsentPostRequestBody := { clientID := "app1", acceptOrReject := "reject" }

/-- C6 counterexample: rejecting the pending demo challenge succeeds, yet the
redirect target handed back lacks the external root URL — the reject branch
never fetches it, so the empty string stands in for the root. -/
theorem consentRedirect_missing_root_counterexample :
    (oidcConsentPOST demoStore demoTable demoUser (some demoRejectBody)
        (some "https://auth.example.com")).1 =
      ConsentPostReply.jsonBody "/api/oidc/authorization?scope=openid+profile" ∧
    ConsentPostReply.jsonBody "/api/oidc/authorization?scope=openid+profile" ≠
      ConsentPostReply.jsonBody
        ("https://auth.example.com" ++ AuthorizationPath ++ "?" ++ "scope=openid+profile") := by
  decide

/-- C6 amended: on accept the redirect target combines the external root URL
with the authorization endpoint path and the original request's encoded
parameters; on reject the external root URL is never fetched and the target is
built from the empty root, yielding only the path and parameters. -/
theorem consentRedirect_target (store : OpenIDConnectStore) (ct : ConsentTable)
    (userSession : UserSession) (body : ConsentPostRequestBody)
    (externalRootURL : Option String) (challengeID : String)
    (consent : OAuth2ConsentSession) (client : Client) (form : String)
    (hcid : userSession.consentChallengeID = some challengeID)
    (hload : LoadOAuth2ConsentSessionByChallengeID ct challengeID = some consent)
    (hkey : consent.challengeID = challengeID)
    (hclient : store.GetFullClient consent.clientID = some client)
    (hlevel : client.IsAuthenticationLevelSufficient userSession.authenticationLevel = true)
    (hmatch : consent.clientID = body.clientID)
    (hform : consent.GetForm = some form) :
    (∀ rootURL, externalRootURL = some rootURL → body.acceptOrReject = accept →
      (oidcConsentPOST store ct userSession (some body) externalRootURL).1 =
        ConsentPostReply.jsonBody (rootURL ++ AuthorizationPath ++ "?" ++ form)) ∧
    (body.acceptOrReject = reject →
      (oidcConsentPOST store ct userSession (some body) externalRootURL).1 =
        ConsentPostReply.jsonBody ("" ++ AuthorizationPath ++ "?" ++ form)) := by
  constructor
  · intro rootURL hroot haccept
    subst hroot
    obtain ⟨ct', h1, _⟩ := oidcConsentPOST_accept_run store ct userSession body
      rootURL challengeID consent client form hcid hload hkey hclient hlevel hmatch hform
      haccept
    rw [h1]
  · intro hreject
    have hres := oidcConsentGetSessionsAndClient_resolves store ct userSession hcid hload hclient
    simp only [oidcConsentPOST, hres, hlevel, hform, hreject, ← hmatch]
    simp [accept, reject]

/-- C6 amended witness: concrete accept and reject runs of the demo challenge
showing the two redirect shapes. -/
theorem consentRedirect_target_witness :
    (oidcConsentPOST demoStore demoTable demoUser (some demoAcceptBody)
        (some "https://auth.example.com")).1 =
      ConsentPostReply.jsonBody
        ("https://auth.example.com" ++ AuthorizationPath ++ "?" ++ "scope=openid+profile") ∧
    (oidcConsentPOST demoStore demoTable demoUser (some demoRejectBody)
        (some "https://auth.example.com")).1 =
      ConsentPostReply.jsonBody ("" ++ AuthorizationPath ++ "?" ++ "scope=openid+profile") :=
  ⟨(consentRedirect_target demoStore demoTable demoUser demoAcceptBody
      (some "https://auth.example.com") "ch1" demoConsent demoClient "scope=openid+profile"
      rfl rfl rfl rfl rfl rfl rfl).1 "https://auth.example.com" rfl rfl,
   (consentRedirect_target demoStore demoTable demoUser demoRejectBody
      (some "https://auth.example.com") "ch1" demoConsent demoClient "scope=openid+profile"
      rfl rfl rfl rfl rfl rfl rfl).2 rfl⟩

end Authelia
